/-
  Verification of the correlation-ID middleware (asgi_correlation_id).

  Shallow embedding of src/asgi_correlation_id/middleware.py:
  - Python's `uuid.UUID(s, version=4)` string parsing (CPython semantics),
    used by `is_valid_uuid4`;
  - Starlette `MutableHeaders` operations (`get`, `__setitem__`, `append`)
    over the raw (name, value) list stored in the ASGI scope;
  - `CorrelationIdMiddleware.__call__` and its inner
    `handle_outgoing_request`, with generator / transformer / hooks
    modelled as possibly-raising functions (`Except String _`);
  - `CorrelationIdMiddleware.__post_init__` with importability of the
    optional extension packages abstracted as booleans.

  Machine integers do not occur; Python ints are Nat/Int.
-/
import Mathlib

namespace AsgiCorrelationId

/-! ### Python character and string helpers (ASCII fragment)

Header names and values travel latin-1-encoded in Starlette; all strings
relevant here are ASCII, so `str.lower` is modelled on the ASCII range. -/

/-- Python `str.lower` on one ASCII character. -/
def pyLowerChar (c : Char) : Char :=
  if 'A' ≤ c ∧ c ≤ 'Z' then Char.ofNat (c.toNat + 32) else c

/-- Python `str.lower` (ASCII fragment). -/
def pyLower (s : String) : String := ⟨s.data.map pyLowerChar⟩

/-- The six characters Python's `str.strip()` / `int()` treat as whitespace
in the ASCII range. -/
def isPySpace (c : Char) : Bool :=
  c == ' ' || c == '\t' || c == '\n' || c == '\r' || c == '\x0b' || c == '\x0c'

/-- Hexadecimal digit as accepted by Python `int(s, 16)` (both cases). -/
def isHexDigit (c : Char) : Bool :=
  ('0' ≤ c && c ≤ '9') || ('a' ≤ c && c ≤ 'f') || ('A' ≤ c && c ≤ 'F')

/-- Numeric value of a hexadecimal digit. -/
def hexVal (c : Char) : Nat :=
  if '0' ≤ c && c ≤ '9' then c.toNat - 48
  else if 'a' ≤ c && c ≤ 'f' then c.toNat - 87
  else c.toNat - 55

/-- Python `s.replace(pat, '')` for a non-empty `pat`: remove the
non-overlapping occurrences of `pat`, scanning left to right.  Structural
recursion on a fuel that bounds the number of scan steps; each step
consumes at least one character, so `l.length` fuel is always enough. -/
def removeOccsFuel (pat : List Char) : Nat → List Char → List Char
  | _, [] => []
  | 0, l => l
  | fuel + 1, c :: rest =>
    if pat.isPrefixOf (c :: rest) then
      removeOccsFuel pat fuel (rest.drop (pat.length - 1))
    else c :: removeOccsFuel pat fuel rest

def removeOccs (pat l : List Char) : List Char :=
  removeOccsFuel pat l.length l

/-- Python `s.strip(chars)`: drop characters of `chars` from both ends. -/
def pyStrip (chars : List Char) (l : List Char) : List Char :=
  ((l.dropWhile (fun c => chars.contains c)).reverse.dropWhile
    (fun c => chars.contains c)).reverse

/-! ### CPython `int(s, 16)`

Grammar after stripping surrounding whitespace: optional sign, optional
`0x`/`0X` base marker (an underscore may directly follow the marker),
then hex digits with single underscores allowed between digits. -/

/-- Digits after the first one: single underscores allowed between digits,
not doubled, not trailing.  `prevUnd` records whether the previous
character was an underscore. -/
def hexDigits (prevUnd : Bool) (acc : Nat) : List Char → Option Nat
  | [] => if prevUnd then none else some acc
  | c :: rest =>
    if c = '_' then
      if prevUnd then none else hexDigits true acc rest
    else if isHexDigit c then hexDigits false (acc * 16 + hexVal c) rest
    else none

/-- A non-empty digit string: must start with a hex digit. -/
def parseHexBody : List Char → Option Nat
  | [] => none
  | c :: rest => if isHexDigit c then hexDigits false (hexVal c) rest else none

/-- After a `0x`/`0X` marker one underscore may precede the first digit. -/
def parsePrefixed (l : List Char) : Option Nat :=
  match l with
  | c :: rest => if c = '_' then parseHexBody rest else parseHexBody l
  | [] => parseHexBody []

/-- Body after the optional sign: optional `0x`/`0X` marker, then digits. -/
def parseAfterSign (l : List Char) : Option Nat :=
  match l with
  | a :: b :: rest =>
      if a = '0' ∧ (b = 'x' ∨ b = 'X') then parsePrefixed rest
      else parseHexBody (a :: b :: rest)
  | _ => parseHexBody l

/-- Sign handling, applied to the whitespace-stripped string. -/
def pyIntHex16Core : List Char → Option Int
  | c :: rest =>
    if c = '+' then (parseAfterSign rest).map (fun n => Int.ofNat n)
    else if c = '-' then (parseAfterSign rest).map (fun n => -(Int.ofNat n))
    else (parseAfterSign (c :: rest)).map (fun n => Int.ofNat n)
  | [] => none

/-- CPython `int(s, 16)`: `some` the value, `none` for `ValueError`. -/
def pyIntHex16 (l : List Char) : Option Int :=
  pyIntHex16Core ((l.dropWhile isPySpace).reverse.dropWhile isPySpace).reverse

/-! ### CPython `uuid.UUID(hex, version=4)` -/

/-- The version/variant overwrite `UUID.__init__` performs when `version`
is passed: clear the variant bits and set them to RFC 4122, clear the
version nibble and set it to 4.  Applied to a value below `2 ^ 128`;
Python's `x & ~m` on such values equals `x &&& ((2 ^ 128 - 1) ^^^ m)`. -/
def uuidSetVersion4 (n : Nat) : Nat :=
  let n1 := n &&& ((2 ^ 128 - 1) ^^^ (0xc000 <<< 48))
  let n2 := n1 ||| (0x8000 <<< 48)
  let n3 := n2 &&& ((2 ^ 128 - 1) ^^^ (0xf000 <<< 64))
  n3 ||| (4 <<< 76)

/-- The character cleanup `UUID.__init__` performs on `hex`:
`hex.replace('urn:', '').replace('uuid:', '').strip('{}').replace('-', '')`. -/
def uuidHexChars (s : String) : List Char :=
  removeOccs ['-']
    (pyStrip ['{', '}'] (removeOccs "uuid:".data (removeOccs "urn:".data s.data)))

/-- CPython `UUID(s, version=4).int`: clean the string, require exactly 32
characters, parse as base-16 (the hyphen removal makes a negative result
impossible, so `Int.toNat` is exact), then overwrite the version and
variant bits.  `none` models `ValueError`. -/
def pyUUID4 (s : String) : Option Nat :=
  if (uuidHexChars s).length = 32 then
    match pyIntHex16 (uuidHexChars s) with
    | some i => some (uuidSetVersion4 i.toNat)
    | none => none
  else none

/-- `is_valid_uuid4` from middleware.py: `bool(UUID(uuid_, version=4))`
inside `try/except ValueError`.  A `UUID` object is always truthy, so the
result is exactly "parsing did not raise". -/
def is_valid_uuid4 (s : String) : Bool := (pyUUID4 s).isSome

/-! ### Starlette `MutableHeaders` over the raw ASGI header list

The scope stores headers as a list of raw (name, value) pairs.  Lookup
lowercases the queried key and compares it with the stored names;
`__setitem__` and `append` store the key lowercased. -/

/-- The raw header list of an ASGI scope or message. -/
abbrev Headers := List (String × String)

/-- `Headers.get`: lowercase the key, return the first matching value. -/
def headersGet (hs : Headers) (key : String) : Option String :=
  (hs.find? (fun p => p.1 == pyLower key)).map (fun p => p.2)

/-- Inner loop of `MutableHeaders.__setitem__` (key already lowercased):
replace the first entry with that name, delete the later ones; append a
new entry when the name was absent. -/
def setItemAux (k v : String) : Headers → Headers
  | [] => [(k, v)]
  | p :: rest =>
    if p.1 == k then (k, v) :: rest.filter (fun q => q.1 != k)
    else p :: setItemAux k v rest

/-- `MutableHeaders.__setitem__`. -/
def headersSet (hs : Headers) (key v : String) : Headers :=
  setItemAux (pyLower key) v hs

/-- `MutableHeaders.append`: add one entry, preserving existing ones. -/
def headersAppend (hs : Headers) (key v : String) : Headers :=
  hs ++ [(pyLower key, v)]

/-! ### The middleware -/

/-- One diagnostic record emitted through `logger`. -/
structure LogRecord where
  level : String
  template : String
  arg : String
deriving DecidableEq, Repr

/-- `FAILED_VALIDATION_MESSAGE` from middleware.py. -/
def FAILED_VALIDATION_MESSAGE : String :=
  "Generated new request ID (%s), since request header value failed validation"

/-- The `CorrelationIdMiddleware` dataclass configuration.  The generator,
transformer and hooks may raise (`Except String _`); the generator's
result is the value its call would return on this request. -/
structure MWConfig where
  header_name : String := "X-Request-ID"
  update_request_header : Bool := true
  generator : Except String String
  validator : Option (String → Bool) := some is_valid_uuid4
  transformer : Option (String → Except String String) := some (fun a => .ok a)
  hooks : List (String → Except String Unit) := []

/-- The middleware dataclass defaults with the per-request value of the
default generator (`uuid4().hex`, a fresh random value) as a parameter. -/
def defaultConfig (gen : String) : MWConfig := { generator := .ok gen }

/-- The part of an ASGI scope the middleware reads. -/
structure Request where
  scopeType : String
  headers : Headers
deriving DecidableEq, Repr

/-- An ASGI message sent by the inner application. -/
structure Message where
  type : String
  headers : Headers
deriving DecidableEq, Repr

/-- Modelled from the spec: `asgi_correlation_id.context.correlation_id`
(the module is not under src/) is a request-scoped get/set slot holding at
most one ID, empty outside a request; here it is explicit state. -/
abbrev CorrelationCtx := Option String

/-- Python truthiness of `correlation_id.get()`: a non-empty string. -/
def ctxTruthy : CorrelationCtx → Bool
  | some s => !(s == "")
  | none => false

/-- The ID-resolution block of `__call__` (lines 58-67): absent or empty
header value generates silently; a configured validator rejecting a
non-empty value generates and logs one warning with
`FAILED_VALIDATION_MESSAGE`; otherwise the header value is reused.
A raising generator propagates. -/
def resolveId (cfg : MWConfig) (header_value : Option String) :
    Except String (String × List LogRecord) :=
  match header_value with
  | none => cfg.generator.map (fun g => (g, []))
  | some v =>
    if v = "" then cfg.generator.map (fun g => (g, []))
    else
      match cfg.validator with
      | some val =>
        if val v then .ok (v, [])
        else cfg.generator.map
          (fun g => (g, [⟨"warning", FAILED_VALIDATION_MESSAGE, v⟩]))
      | none => .ok (v, [])

/-- Lines 70-71: `if self.transformer: id_value = self.transformer(id_value)`. -/
def applyTransformer (cfg : MWConfig) (i : String) : Except String String :=
  match cfg.transformer with
  | some t => t i
  | none => .ok i

/-- Lines 79-80: call each hook in order with the final ID; a raising hook
aborts the loop and propagates.  On success returns the argument list of
the performed calls. -/
def runHooks (hooks : List (String → Except String Unit)) (x : String) :
    Except String (List String) :=
  match hooks with
  | [] => .ok []
  | h :: rest =>
    match h x with
    | .ok _ => (runHooks rest x).map (fun l => x :: l)
    | .error e => .error e

/-- `handle_outgoing_request` (lines 82-87): on an `http.response.start`
message with a truthy context ID, append the correlation header; forward
every other message unchanged. -/
def handle_outgoing_request (cfg : MWConfig) (ctx : CorrelationCtx)
    (message : Message) : Message :=
  if message.type == "http.response.start" && ctxTruthy ctx then
    { message with
      headers := headersAppend message.headers cfg.header_name (ctx.getD "") }
  else message

/-- Everything `__call__` produces for one request, on the non-raising
path: the final ID, the inbound header list the inner app saw, the log
records, the context value, the hook-call arguments, and the outbound
messages after `handle_outgoing_request`. -/
structure RunResult where
  finalId : Option String
  reqHeadersSeen : Headers
  logs : List LogRecord
  ctxSet : CorrelationCtx
  hookCalls : List String
  outMessages : List Message
deriving DecidableEq, Repr

/-- Lines 74-75: `if id_value != header_value and self.update_request_header
is True: headers[self.header_name] = id_value`, where `header_value` was
read from the original inbound headers. -/
def newHeaders (cfg : MWConfig) (req : Request) (id1 : String) : Headers :=
  if headersGet req.headers cfg.header_name ≠ some id1 ∧ cfg.update_request_header then
    headersSet req.headers cfg.header_name id1
  else req.headers

/-- `CorrelationIdMiddleware.__call__` (lines 46-90).  The inner
application is a function from the (possibly rewritten) request to the
messages it sends.  A non-`http` scope is passed through untouched.
Otherwise: resolve, transform, conditionally rewrite the inbound header,
set the context, run the hooks, then run the app through the outbound
wrapper.  Any raise propagates as `.error`. -/
def middlewareCall (cfg : MWConfig) (app : Request → List Message)
    (req : Request) : Except String RunResult :=
  if req.scopeType ≠ "http" then
    .ok { finalId := none, reqHeadersSeen := req.headers, logs := [],
          ctxSet := none, hookCalls := [], outMessages := app req }
  else
    match resolveId cfg (headersGet req.headers cfg.header_name) with
    | .error e => .error e
    | .ok (id0, logs) =>
      match applyTransformer cfg id0 with
      | .error e => .error e
      | .ok id1 =>
        match runHooks cfg.hooks id1 with
        | .error e => .error e
        | .ok calls =>
          .ok { finalId := some id1, reqHeadersSeen := newHeaders cfg req id1,
                logs := logs, ctxSet := some id1, hookCalls := calls,
                outMessages :=
                  (app { req with headers := newHeaders cfg req id1 }).map
                    (handle_outgoing_request cfg (some id1)) }

/-! ### `__post_init__` (lines 92-110)

Whether the optional extension packages import successfully is a property
of the environment, abstracted as two booleans; the hook appended on a
successful sentry import is the external `set_transaction_id`. -/

/-- A hook as identified at construction time: either one of the
statically provided hooks or the sentry extension's `set_transaction_id`. -/
inductive HookRef where
  | user (i : Nat)
  | sentry_set_transaction_id
deriving DecidableEq, Repr

/-- Which optional extension packages are importable. -/
structure ExtEnv where
  celery_importable : Bool
  sentry_importable : Bool
deriving DecidableEq, Repr

/-- State after `__post_init__`: the final hook list and whether the
celery extension's `load_correlation_ids()` ran. -/
structure InitState where
  hooks : List HookRef
  celery_ids_loaded : Bool
deriving DecidableEq, Repr

/-- `__post_init__`: call `load_correlation_ids()` when the celery
extension imports; append `set_transaction_id` to `self.hooks` when the
sentry extension imports. -/
def postInit (env : ExtEnv) (hooks : List HookRef) : InitState :=
  { hooks :=
      if env.sentry_importable then hooks ++ [.sentry_set_transaction_id]
      else hooks,
    celery_ids_loaded := env.celery_importable }

/-! ### Helper lemmas: the default validator accepts 32-char lowercase hex -/

/-- A lowercase hexadecimal digit. -/
def isLowerHexDigit (c : Char) : Bool :=
  "0123456789abcdef".data.contains c

theorem lowerHex_facts (c : Char) (h : isLowerHexDigit c = true) :
    isHexDigit c = true ∧ c ≠ '_' ∧ isPySpace c = false ∧ c ≠ '+' ∧ c ≠ '-' ∧
    c ≠ ':' ∧ c ≠ '{' ∧ c ≠ '}' ∧ c ≠ 'x' ∧ c ≠ 'X' := by
  have hall : ∀ x ∈ "0123456789abcdef".data,
      isHexDigit x = true ∧ x ≠ '_' ∧ isPySpace x = false ∧ x ≠ '+' ∧ x ≠ '-' ∧
      x ≠ ':' ∧ x ≠ '{' ∧ x ≠ '}' ∧ x ≠ 'x' ∧ x ≠ 'X' := by decide
  refine hall c ?_
  unfold isLowerHexDigit at h
  exact List.elem_iff.mp h

theorem mem_of_isPrefixOf {x : Char} :
    ∀ {p l : List Char}, p.isPrefixOf l = true → x ∈ p → x ∈ l
  | [], _, _, hx => absurd hx (List.not_mem_nil x)
  | _ :: _, [], hp, _ => by simp [List.isPrefixOf] at hp
  | a :: p', b :: l', hp, hx => by
    simp only [List.isPrefixOf, Bool.and_eq_true, beq_iff_eq] at hp
    rcases List.mem_cons.mp hx with rfl | hx'
    · exact hp.1 ▸ List.mem_cons_self _ _
    · exact List.mem_cons_of_mem _ (mem_of_isPrefixOf hp.2 hx')

theorem removeOccsFuel_id (pat : List Char) (x : Char) (hx : x ∈ pat) :
    ∀ (fuel : Nat) (l : List Char), (∀ c ∈ l, c ≠ x) →
      removeOccsFuel pat fuel l = l
  | 0, l, _ => by cases l <;> rfl
  | fuel + 1, [], _ => rfl
  | fuel + 1, c :: rest, h => by
    have hnp : pat.isPrefixOf (c :: rest) = false := by
      cases hb : pat.isPrefixOf (c :: rest) with
      | false => rfl
      | true => exact absurd rfl (h x (mem_of_isPrefixOf hb hx))
    show (if pat.isPrefixOf (c :: rest) then
        removeOccsFuel pat fuel (rest.drop (pat.length - 1))
      else c :: removeOccsFuel pat fuel rest) = c :: rest
    rw [hnp]
    simp only [Bool.false_eq_true, if_false, List.cons.injEq, true_and]
    exact removeOccsFuel_id pat x hx fuel rest
      (fun d hd => h d (List.mem_cons_of_mem _ hd))

/-- `removeOccs` is the identity when some character of the pattern never
occurs in the list. -/
theorem removeOccs_id (pat : List Char) (x : Char) (hx : x ∈ pat)
    (l : List Char) (h : ∀ c ∈ l, c ≠ x) : removeOccs pat l = l :=
  removeOccsFuel_id pat x hx l.length l h

theorem dropWhile_eq_self {p : Char → Bool} :
    ∀ {l : List Char}, (∀ c ∈ l, p c = false) → l.dropWhile p = l
  | [], _ => rfl
  | c :: rest, h => by
    rw [List.dropWhile_cons, if_neg]
    simp [h c (List.mem_cons_self c rest)]

theorem pyStrip_id (chars l : List Char)
    (h : ∀ c ∈ l, chars.contains c = false) : pyStrip chars l = l := by
  unfold pyStrip
  rw [dropWhile_eq_self h, dropWhile_eq_self
    (fun c hc => h c (List.mem_reverse.mp hc)), List.reverse_reverse]

theorem hexDigits_isSome :
    ∀ (l : List Char), (∀ c ∈ l, isHexDigit c = true ∧ c ≠ '_') →
      ∀ acc, (hexDigits false acc l).isSome = true
  | [], _, _ => by simp [hexDigits]
  | c :: rest, h, acc => by
    obtain ⟨hc, hne⟩ := h c (List.mem_cons_self c rest)
    simp only [hexDigits]
    rw [if_neg hne, if_pos hc]
    exact hexDigits_isSome rest (fun d hd => h d (List.mem_cons_of_mem _ hd)) _

theorem parseHexBody_isSome (l : List Char) (hne : l ≠ [])
    (h : ∀ c ∈ l, isHexDigit c = true ∧ c ≠ '_') :
    (parseHexBody l).isSome = true := by
  match l with
  | [] => exact absurd rfl hne
  | c :: rest =>
    show ((if isHexDigit c then hexDigits false (hexVal c) rest else none)).isSome = true
    rw [if_pos (h c (List.mem_cons_self c rest)).1]
    exact hexDigits_isSome rest (fun d hd => h d (List.mem_cons_of_mem _ hd)) _

theorem parseAfterSign_isSome (l : List Char) (hne : l ≠ [])
    (h : ∀ c ∈ l, isHexDigit c = true ∧ c ≠ '_' ∧ c ≠ 'x' ∧ c ≠ 'X') :
    (parseAfterSign l).isSome = true := by
  have hb : ∀ c ∈ l, isHexDigit c = true ∧ c ≠ '_' :=
    fun c hc => ⟨(h c hc).1, (h c hc).2.1⟩
  match l, hne with
  | [c], _ =>
    show (parseHexBody [c]).isSome = true
    exact parseHexBody_isSome [c] (by simp) hb
  | a :: b :: rest, _ =>
    have hbf := h b (List.mem_cons_of_mem _ (List.mem_cons_self b rest))
    show ((if a = '0' ∧ (b = 'x' ∨ b = 'X') then parsePrefixed rest
      else parseHexBody (a :: b :: rest))).isSome = true
    rw [if_neg]
    · exact parseHexBody_isSome _ (by simp) hb
    · intro hcontr
      rcases hcontr.2 with hx | hx
      · exact hbf.2.2.1 hx
      · exact hbf.2.2.2 hx

theorem pyIntHex16_isSome (l : List Char) (hne : l ≠ [])
    (h : ∀ c ∈ l, isHexDigit c = true ∧ c ≠ '_' ∧ isPySpace c = false ∧
      c ≠ '+' ∧ c ≠ '-' ∧ c ≠ 'x' ∧ c ≠ 'X') :
    (pyIntHex16 l).isSome = true := by
  have hstrip : ((l.dropWhile isPySpace).reverse.dropWhile isPySpace).reverse = l := by
    rw [dropWhile_eq_self (fun c hc => (h c hc).2.2.1),
      dropWhile_eq_self (fun c hc => (h c (List.mem_reverse.mp hc)).2.2.1),
      List.reverse_reverse]
  unfold pyIntHex16
  rw [hstrip]
  match l, hne with
  | c :: rest, _ =>
    have hc := h c (List.mem_cons_self c rest)
    show ((if c = '+' then (parseAfterSign rest).map (fun n => Int.ofNat n)
      else if c = '-' then (parseAfterSign rest).map (fun n => -(Int.ofNat n))
      else (parseAfterSign (c :: rest)).map (fun n => Int.ofNat n))).isSome = true
    rw [if_neg hc.2.2.2.1, if_neg hc.2.2.2.2.1]
    have hsome := parseAfterSign_isSome (c :: rest) (by simp)
      (fun d hd => ⟨(h d hd).1, (h d hd).2.1,
        (h d hd).2.2.2.2.2.1, (h d hd).2.2.2.2.2.2⟩)
    obtain ⟨n, hn⟩ := Option.isSome_iff_exists.mp hsome
    rw [hn]
    rfl

/-- Every 32-character lowercase-hexadecimal string passes the default
validator. -/
theorem is_valid_uuid4_of_lower_hex (v : String)
    (hlen : v.data.length = 32)
    (hhex : ∀ c ∈ v.data, isLowerHexDigit c = true) :
    is_valid_uuid4 v = true := by
  have hf := fun c hc => lowerHex_facts c (hhex c hc)
  have hbrace : ∀ c ∈ v.data, (['{', '}'] : List Char).contains c = false := by
    intro c hc
    have e1 : (c == '{') = false := beq_eq_false_iff_ne.mpr (hf c hc).2.2.2.2.2.2.1
    have e2 : (c == '}') = false := beq_eq_false_iff_ne.mpr (hf c hc).2.2.2.2.2.2.2.1
    simp [List.contains, List.elem, e1, e2]
  have hclean : uuidHexChars v = v.data := by
    unfold uuidHexChars
    rw [removeOccs_id _ ':' (by decide) _ (fun c hc => (hf c hc).2.2.2.2.2.1),
      removeOccs_id _ ':' (by decide) _ (fun c hc => (hf c hc).2.2.2.2.2.1),
      pyStrip_id _ _ hbrace,
      removeOccs_id _ '-' (by decide) _ (fun c hc => (hf c hc).2.2.2.2.1)]
  unfold is_valid_uuid4 pyUUID4
  rw [hclean, if_pos hlen]
  have hint : (pyIntHex16 v.data).isSome = true :=
    pyIntHex16_isSome v.data (by intro he; rw [he] at hlen; simp at hlen)
      (fun c hc => ⟨(hf c hc).1, (hf c hc).2.1, (hf c hc).2.2.1,
        (hf c hc).2.2.2.1, (hf c hc).2.2.2.2.1,
        (hf c hc).2.2.2.2.2.2.2.2.1, (hf c hc).2.2.2.2.2.2.2.2.2⟩)
  obtain ⟨i, hi⟩ := Option.isSome_iff_exists.mp hint
  rw [hi]
  rfl

/-! ### Helper lemmas: middleware -/

theorem append_self_ne_empty (s : String) (h : s ≠ "") : s ++ s ≠ "" := by
  intro hcontr
  apply h
  have hd := congrArg String.data hcontr
  rw [String.data_append] at hd
  rcases List.append_eq_nil.mp hd with ⟨h1, _⟩
  cases s with
  | mk d => rw [show d = [] from by simpa using h1]

/-- With a non-empty context ID, the outbound wrapper appends exactly one
correlation header to `http.response.start` messages and forwards the
rest untouched. -/
theorem handle_outgoing_of_ne (cfg : MWConfig) (x : String) (hx : x ≠ "")
    (m : Message) :
    handle_outgoing_request cfg (some x) m =
      if m.type = "http.response.start"
      then { m with headers := m.headers ++ [(pyLower cfg.header_name, x)] }
      else m := by
  have ht : ctxTruthy (some x) = true := by
    simp [ctxTruthy, hx]
  unfold handle_outgoing_request
  rw [ht, Bool.and_true]
  by_cases hty : m.type = "http.response.start"
  · rw [if_pos hty, if_pos (by simp [hty]), headersAppend]
    rfl
  · rw [if_neg hty, if_neg (by simp [hty])]

/-- Computation rule for the successful path of `__call__`. -/
theorem middlewareCall_ok (cfg : MWConfig) (app : Request → List Message)
    (req : Request) (rid : String) (lg : List LogRecord) (id1 : String)
    (calls : List String) (hhttp : req.scopeType = "http")
    (hres : resolveId cfg (headersGet req.headers cfg.header_name) = .ok (rid, lg))
    (htr : applyTransformer cfg rid = .ok id1)
    (hhk : runHooks cfg.hooks id1 = .ok calls) :
    middlewareCall cfg app req =
      .ok { finalId := some id1, reqHeadersSeen := newHeaders cfg req id1,
            logs := lg, ctxSet := some id1, hookCalls := calls,
            outMessages :=
              (app { req with headers := newHeaders cfg req id1 }).map
                (handle_outgoing_request cfg (some id1)) } := by
  have h1 : ¬(req.scopeType ≠ "http") := by simp [hhttp]
  simp only [middlewareCall, if_neg h1, hres, htr, hhk]

/-- A raise during resolution (in particular from the generator)
propagates. -/
theorem middlewareCall_err_resolve (cfg : MWConfig)
    (app : Request → List Message) (req : Request) (e : String)
    (hhttp : req.scopeType = "http")
    (hres : resolveId cfg (headersGet req.headers cfg.header_name) = .error e) :
    middlewareCall cfg app req = .error e := by
  have h1 : ¬(req.scopeType ≠ "http") := by simp [hhttp]
  simp only [middlewareCall, if_neg h1, hres]

/-- A raise from the transformer propagates. -/
theorem middlewareCall_err_transform (cfg : MWConfig)
    (app : Request → List Message) (req : Request) (e : String)
    (rid : String) (lg : List LogRecord) (hhttp : req.scopeType = "http")
    (hres : resolveId cfg (headersGet req.headers cfg.header_name) = .ok (rid, lg))
    (htr : applyTransformer cfg rid = .error e) :
    middlewareCall cfg app req = .error e := by
  have h1 : ¬(req.scopeType ≠ "http") := by simp [hhttp]
  simp only [middlewareCall, if_neg h1, hres, htr]

/-- A raise from a hook propagates. -/
theorem middlewareCall_err_hooks (cfg : MWConfig)
    (app : Request → List Message) (req : Request) (e : String)
    (rid : String) (lg : List LogRecord) (id1 : String)
    (hhttp : req.scopeType = "http")
    (hres : resolveId cfg (headersGet req.headers cfg.header_name) = .ok (rid, lg))
    (htr : applyTransformer cfg rid = .ok id1)
    (hhk : runHooks cfg.hooks id1 = .error e) :
    middlewareCall cfg app req = .error e := by
  have h1 : ¬(req.scopeType ≠ "http") := by simp [hhttp]
  simp only [middlewareCall, if_neg h1, hres, htr, hhk]

/-! ### Claims -/

/-- C7: a non-`http` scope is passed through with the original request and
messages untouched, and the whole call does not depend on any part of the
configuration (no generator, validator, transformer or hook is consulted,
no log, no context write, no header mutation). -/
theorem claim_C7_non_http_bypass (cfg cfg' : MWConfig)
    (app : Request → List Message) (req : Request)
    (h : req.scopeType ≠ "http") :
    middlewareCall cfg app req =
      .ok { finalId := none, reqHeadersSeen := req.headers, logs := [],
            ctxSet := none, hookCalls := [], outMessages := app req } ∧
    middlewareCall cfg' app req = middlewareCall cfg app req := by
  constructor
  · unfold middlewareCall
    rw [if_pos h]
  · unfold middlewareCall
    rw [if_pos h, if_pos h]

/-- C7 witness: a concrete websocket request bypasses the middleware. -/
theorem claim_C7_witness :
    middlewareCall (defaultConfig "g")
        (fun _ => [{ type := "websocket.accept", headers := [] }])
        { scopeType := "websocket", headers := [("x-request-id", "abc")] } =
      .ok { finalId := none,
            reqHeadersSeen := [("x-request-id", "abc")], logs := [],
            ctxSet := none, hookCalls := [],
            outMessages := [{ type := "websocket.accept", headers := [] }] } ∧
    middlewareCall (defaultConfig "other")
        (fun _ => [{ type := "websocket.accept", headers := [] }])
        { scopeType := "websocket", headers := [("x-request-id", "abc")] } =
    middlewareCall (defaultConfig "g")
        (fun _ => [{ type := "websocket.accept", headers := [] }])
        { scopeType := "websocket", headers := [("x-request-id", "abc")] } :=
  claim_C7_non_http_bypass (defaultConfig "g") (defaultConfig "other")
    (fun _ => [{ type := "websocket.accept", headers := [] }])
    { scopeType := "websocket", headers := [("x-request-id", "abc")] }
    (by decide)

/-- C8: only an `http.response.start` message, and only with a correlation
ID present (truthy) in the context, gets the correlation header appended —
never overwritten, all pre-existing entries (same-named ones included)
kept in place — and every other message is forwarded unchanged. -/
theorem claim_C8_outbound_append (cfg : MWConfig) (ctx : CorrelationCtx)
    (m : Message) :
    ((m.type ≠ "http.response.start" ∨ ctxTruthy ctx = false) →
      handle_outgoing_request cfg ctx m = m) ∧
    (∀ s, ctx = some s → s ≠ "" → m.type = "http.response.start" →
      handle_outgoing_request cfg ctx m =
        { m with headers := m.headers ++ [(pyLower cfg.header_name, s)] }) := by
  constructor
  · intro h
    unfold handle_outgoing_request
    rcases h with h | h
    · rw [if_neg]
      simp [h]
    · rw [if_neg]
      simp [h]
  · intro s hs hne hty
    subst hs
    rw [handle_outgoing_of_ne cfg s hne m, if_pos hty]

/-- C8 witness: an application-set same-named header and two cookies are
all preserved; the context ID is appended after them. -/
theorem claim_C8_witness :
    handle_outgoing_request (defaultConfig "g") (some "abc")
        { type := "http.response.start",
          headers := [("x-request-id", "app-set"), ("set-cookie", "a"),
            ("set-cookie", "b")] } =
      { type := "http.response.start",
        headers := [("x-request-id", "app-set"), ("set-cookie", "a"),
          ("set-cookie", "b"), ("x-request-id", "abc")] } :=
  ((claim_C8_outbound_append (defaultConfig "g") (some "abc")
      { type := "http.response.start",
        headers := [("x-request-id", "app-set"), ("set-cookie", "a"),
          ("set-cookie", "b")] }).2
    "abc" rfl (by decide) rfl).trans (by decide)

/-- C3 counterexample: with the sentry extension importable, the hook
list after construction is not the (empty) statically provided list —
`__post_init__` registers `set_transaction_id` inside the core. -/
theorem claim_C3_counterexample :
    (postInit { celery_importable := false, sentry_importable := true }
      []).hooks ≠ [] := by
  decide

/-- C3 (amended): construction yields the provided hook list with the
sentry extension's `set_transaction_id` appended exactly when that package
is importable, and runs the celery extension loader exactly when that
package is importable — so the dispatched hook set does depend on the
environment. -/
theorem claim_C3_amended_conditional_hooks (env : ExtEnv)
    (provided : List HookRef) :
    postInit env provided =
      { hooks := provided ++
          (if env.sentry_importable then [HookRef.sentry_set_transaction_id]
           else []),
        celery_ids_loaded := env.celery_importable } := by
  cases env with
  | mk c s => cases s <;> simp [postInit]

/-- C1 (code evaluation at the failing input): on a response-start message
already carrying `Access-Control-Expose-Headers: test1, test2`, the
outbound wrapper only appends the correlation header; the exposed-headers
declaration is left as `test1, test2` — the header name is never added to
it, contradicting the claim (and the repository's own tests). -/
theorem claim_C1_expose_headers_untouched :
    handle_outgoing_request (defaultConfig "g")
        (some "c303282df2e646caa04a35d3d873712d")
        { type := "http.response.start",
          headers := [("access-control-expose-headers", "test1, test2")] } =
      { type := "http.response.start",
        headers := [("access-control-expose-headers", "test1, test2"),
          ("x-request-id", "c303282df2e646caa04a35d3d873712d")] } ∧
    headersGet [("access-control-expose-headers", "test1, test2"),
        ("x-request-id", "c303282df2e646caa04a35d3d873712d")]
      "Access-Control-Expose-Headers" = some "test1, test2" := by
  exact ⟨by decide, by decide⟩

/-- C2: the resolved ID follows the first matching rule — absent or empty
header value: `generator()`, no log; non-empty value rejected by a
configured validator: `generator()` plus exactly one warning record with
the fixed template interpolating the rejected raw value; otherwise the
header value unchanged. -/
theorem claim_C2_resolution_rules (cfg : MWConfig) (req : Request) :
    ((headersGet req.headers cfg.header_name = none ∨
      headersGet req.headers cfg.header_name = some "") →
      resolveId cfg (headersGet req.headers cfg.header_name) =
        cfg.generator.map (fun g => (g, []))) ∧
    (∀ v val, headersGet req.headers cfg.header_name = some v → v ≠ "" →
      cfg.validator = some val → val v = false →
      resolveId cfg (headersGet req.headers cfg.header_name) =
        cfg.generator.map
          (fun g => (g, [⟨"warning", FAILED_VALIDATION_MESSAGE, v⟩]))) ∧
    (∀ v, headersGet req.headers cfg.header_name = some v → v ≠ "" →
      (cfg.validator = none ∨ ∃ val, cfg.validator = some val ∧ val v = true) →
      resolveId cfg (headersGet req.headers cfg.header_name) = .ok (v, [])) := by
  refine ⟨?_, ?_, ?_⟩
  · intro h
    rcases h with h | h <;> rw [h]
    · rfl
    · simp [resolveId]
  · intro v val hv hne hval hvf
    rw [hv]
    simp [resolveId, hne, hval, hvf]
  · intro v hv hne hacc
    rw [hv]
    rcases hacc with h | ⟨val, hval, hvt⟩
    · simp [resolveId, hne, h]
    · simp [resolveId, hne, hval, hvt]

/-- C2 witness: the default validator rejects `bad-uuid`; the resolved ID
is the generated one and one warning record carries the rejected value. -/
theorem claim_C2_witness :
    resolveId { generator := .ok "gen1" }
        (headersGet [("x-request-id", "bad-uuid")] "X-Request-ID") =
      .ok ("gen1", [⟨"warning", FAILED_VALIDATION_MESSAGE, "bad-uuid"⟩]) :=
  (claim_C2_resolution_rules { generator := .ok "gen1" }
      { scopeType := "http", headers := [("x-request-id", "bad-uuid")] }).2.1
    "bad-uuid" is_valid_uuid4 (by decide) (by decide) rfl (by decide)

/-- C6: the inbound header set the inner application sees is the
single-value overwrite at the configured name exactly when the final ID
differs from the original header value and `update_request_header` is
true; otherwise it is the untouched original list. -/
theorem claim_C6_request_header_rewrite (cfg : MWConfig)
    (app : Request → List Message) (req : Request) (r : RunResult)
    (hhttp : req.scopeType = "http")
    (hok : middlewareCall cfg app req = .ok r) :
    ∃ fid, r.finalId = some fid ∧
      r.reqHeadersSeen =
        (if headersGet req.headers cfg.header_name ≠ some fid ∧
            cfg.update_request_header = true
         then headersSet req.headers cfg.header_name fid
         else req.headers) := by
  unfold middlewareCall at hok
  rw [if_neg (by simp [hhttp])] at hok
  cases hres : resolveId cfg (headersGet req.headers cfg.header_name) with
  | error e => simp only [hres] at hok; cases hok
  | ok p =>
    rcases p with ⟨id0, lg⟩
    simp only [hres] at hok
    cases htr : applyTransformer cfg id0 with
    | error e => simp only [htr] at hok; cases hok
    | ok id1 =>
      simp only [htr] at hok
      cases hhk : runHooks cfg.hooks id1 with
      | error e => simp only [hhk] at hok; cases hok
      | ok calls =>
        simp only [hhk] at hok
        injection hok with hok
        subst hok
        exact ⟨id1, rfl, rfl⟩

/-- C6 witness: an invalid inbound value is replaced, so with the default
configuration the inbound header is overwritten with the generated ID. -/
theorem claim_C6_witness :
    ∃ fid,
      (({ finalId := some "gen1", reqHeadersSeen := [("x-request-id", "gen1")],
          logs := [⟨"warning", FAILED_VALIDATION_MESSAGE, "bad-uuid"⟩],
          ctxSet := some "gen1", hookCalls := [],
          outMessages := [] } : RunResult)).finalId = some fid ∧
      (({ finalId := some "gen1", reqHeadersSeen := [("x-request-id", "gen1")],
          logs := [⟨"warning", FAILED_VALIDATION_MESSAGE, "bad-uuid"⟩],
          ctxSet := some "gen1", hookCalls := [],
          outMessages := [] } : RunResult)).reqHeadersSeen =
        (if headersGet [("x-request-id", "bad-uuid")]
              (defaultConfig "gen1").header_name ≠ some fid ∧
            (defaultConfig "gen1").update_request_header = true
         then headersSet [("x-request-id", "bad-uuid")]
          (defaultConfig "gen1").header_name fid
         else [("x-request-id", "bad-uuid")]) :=
  claim_C6_request_header_rewrite (defaultConfig "gen1") (fun _ => [])
    { scopeType := "http", headers := [("x-request-id", "bad-uuid")] }
    { finalId := some "gen1", reqHeadersSeen := [("x-request-id", "gen1")],
      logs := [⟨"warning", FAILED_VALIDATION_MESSAGE, "bad-uuid"⟩],
      ctxSet := some "gen1", hookCalls := [], outMessages := [] }
    rfl (by rfl)

/-- C5: whenever a transformer is configured and the call succeeds, the
final (published, appended) ID is the transformer applied to the resolved
ID, on every resolution path including reuse; in particular a doubling
transformer turns an accepted inbound `cid` into outbound header value
`cid ++ cid`. -/
theorem claim_C5_transformer_always_applied :
    (∀ (cfg : MWConfig) (f : String → String) (app : Request → List Message)
        (req : Request) (r : RunResult),
      cfg.transformer = some (fun s => .ok (f s)) →
      req.scopeType = "http" →
      middlewareCall cfg app req = .ok r →
      ∃ rid lg,
        resolveId cfg (headersGet req.headers cfg.header_name) = .ok (rid, lg) ∧
        r.finalId = some (f rid) ∧ r.ctxSet = some (f rid)) ∧
    (∀ (val : String → Bool) (gen cid : String) (app : Request → List Message)
        (req : Request),
      val cid = true → cid ≠ "" → req.scopeType = "http" →
      headersGet req.headers "X-Request-ID" = some cid →
      ∃ r, middlewareCall
          { header_name := "X-Request-ID", update_request_header := true,
            generator := .ok gen, validator := some val,
            transformer := some (fun s => .ok (s ++ s)), hooks := [] } app req =
          .ok r ∧
        r.finalId = some (cid ++ cid) ∧
        r.outMessages =
          (app { req with headers := r.reqHeadersSeen }).map
            (fun m =>
              if m.type = "http.response.start"
              then { m with headers := m.headers ++ [("x-request-id", cid ++ cid)] }
              else m)) := by
  constructor
  · intro cfg f app req r htrans hhttp hok
    unfold middlewareCall at hok
    rw [if_neg (by simp [hhttp])] at hok
    cases hres : resolveId cfg (headersGet req.headers cfg.header_name) with
    | error e => simp only [hres] at hok; cases hok
    | ok p =>
      rcases p with ⟨id0, lg⟩
      simp only [hres] at hok
      have htr : applyTransformer cfg id0 = .ok (f id0) := by
        unfold applyTransformer
        rw [htrans]
      simp only [htr] at hok
      cases hhk : runHooks cfg.hooks (f id0) with
      | error e => simp only [hhk] at hok; cases hok
      | ok calls =>
        simp only [hhk] at hok
        injection hok with hok
        subst hok
        exact ⟨id0, lg, rfl, rfl, rfl⟩
  · intro val gen cid app req hval hne hhttp hv
    have hres : resolveId
        { header_name := "X-Request-ID", update_request_header := true,
          generator := .ok gen, validator := some val,
          transformer := some (fun s => .ok (s ++ s)), hooks := [] }
        (headersGet req.headers "X-Request-ID") = .ok (cid, []) := by
      rw [hv]
      simp [resolveId, hne, hval]
    have hd := middlewareCall_ok
      { header_name := "X-Request-ID", update_request_header := true,
        generator := .ok gen, validator := some val,
        transformer := some (fun s => .ok (s ++ s)), hooks := [] }
      app req cid [] (cid ++ cid) [] hhttp hres rfl rfl
    refine ⟨_, hd, rfl, ?_⟩
    refine List.map_congr_left ?_
    intro m _
    rw [handle_outgoing_of_ne _ (cid ++ cid) (append_self_ne_empty cid hne) m]
    rfl

/-- C5 witness: the doubling transformer applied to a concrete accepted
inbound ID. -/
theorem claim_C5_witness :
    ∃ r, middlewareCall
        { header_name := "X-Request-ID", update_request_header := true,
          generator := .ok "gen1", validator := some (fun _ => true),
          transformer := some (fun s => .ok (s ++ s)), hooks := [] }
        (fun _ => [{ type := "http.response.start", headers := [] }])
        { scopeType := "http", headers := [("x-request-id", "abc")] } =
        .ok r ∧
      r.finalId = some ("abc" ++ "abc") ∧
      r.outMessages =
        ((fun (_ : Request) => [{ type := "http.response.start", headers := ([] : Headers) }])
            { scopeType := "http", headers := r.reqHeadersSeen }).map
          (fun m =>
            if m.type = "http.response.start"
            then { m with headers := m.headers ++ [("x-request-id", "abc" ++ "abc")] }
            else m) :=
  (claim_C5_transformer_always_applied).2 (fun _ => true) "gen1" "abc"
    (fun _ => [{ type := "http.response.start", headers := [] }])
    { scopeType := "http", headers := [("x-request-id", "abc")] }
    rfl (by decide) rfl rfl

/-- C9: a raising generator, transformer or hook propagates out of the
call (and the inner application is never consulted on an error), while a
mere validation failure is recovered locally with the generated ID. -/
theorem claim_C9_exception_propagation :
    (∀ (cfg : MWConfig) (app : Request → List Message) (req : Request)
        (e : String), req.scopeType = "http" →
      resolveId cfg (headersGet req.headers cfg.header_name) = .error e →
      middlewareCall cfg app req = .error e) ∧
    (∀ (cfg : MWConfig) (e : String), cfg.generator = .error e →
      resolveId cfg none = .error e ∧ resolveId cfg (some "") = .error e ∧
      (∀ v val, cfg.validator = some val → val v = false → v ≠ "" →
        resolveId cfg (some v) = .error e)) ∧
    (∀ (cfg : MWConfig) (app : Request → List Message) (req : Request)
        (e rid : String) (lg : List LogRecord)
        (t : String → Except String String), req.scopeType = "http" →
      resolveId cfg (headersGet req.headers cfg.header_name) = .ok (rid, lg) →
      cfg.transformer = some t → t rid = .error e →
      middlewareCall cfg app req = .error e) ∧
    (∀ (cfg : MWConfig) (app : Request → List Message) (req : Request)
        (e rid id1 : String) (lg : List LogRecord), req.scopeType = "http" →
      resolveId cfg (headersGet req.headers cfg.header_name) = .ok (rid, lg) →
      applyTransformer cfg rid = .ok id1 →
      runHooks cfg.hooks id1 = .error e →
      middlewareCall cfg app req = .error e) ∧
    (∀ (cfg : MWConfig) (app app' : Request → List Message) (req : Request)
        (e : String), middlewareCall cfg app req = .error e →
      middlewareCall cfg app' req = .error e) ∧
    (∀ (cfg : MWConfig) (v g : String) (val : String → Bool),
      cfg.generator = .ok g → cfg.validator = some val →
      val v = false → v ≠ "" →
      resolveId cfg (some v) =
        .ok (g, [⟨"warning", FAILED_VALIDATION_MESSAGE, v⟩])) := by
  refine ⟨?_, ?_, ?_, ?_, ?_, ?_⟩
  · intro cfg app req e hhttp hres
    exact middlewareCall_err_resolve cfg app req e hhttp hres
  · intro cfg e hgen
    refine ⟨by simp [resolveId, hgen, Except.map],
      by simp [resolveId, hgen, Except.map], ?_⟩
    intro v val hval hvf hne
    simp [resolveId, hne, hval, hvf, hgen, Except.map]
  · intro cfg app req e rid lg t hhttp hres htrans hraise
    refine middlewareCall_err_transform cfg app req e rid lg hhttp hres ?_
    unfold applyTransformer
    simp only [htrans]
    exact hraise
  · intro cfg app req e rid id1 lg hhttp hres htr hhk
    exact middlewareCall_err_hooks cfg app req e rid lg id1 hhttp hres htr hhk
  · intro cfg app app' req e h
    by_cases hs : req.scopeType ≠ "http"
    · unfold middlewareCall at h
      rw [if_pos hs] at h
      cases h
    · unfold middlewareCall at h ⊢
      rw [if_neg hs] at h ⊢
      cases hres : resolveId cfg (headersGet req.headers cfg.header_name) with
      | error e' => simp only [hres] at h ⊢; exact h
      | ok p =>
        rcases p with ⟨id0, lg⟩
        simp only [hres] at h ⊢
        cases htr : applyTransformer cfg id0 with
        | error e' => simp only [htr] at h ⊢; exact h
        | ok id1 =>
          simp only [htr] at h ⊢
          cases hhk : runHooks cfg.hooks id1 with
          | error e' => simp only [hhk] at h ⊢; exact h
          | ok calls => simp only [hhk] at h; cases h
  · intro cfg v g val hgen hval hvf hne
    simp [resolveId, hne, hval, hvf, hgen, Except.map]

/-- C9 witness: a concrete raising transformer aborts the request with its
error and the app (which would send a message) is never reached. -/
theorem claim_C9_witness :
    middlewareCall
        { generator := .ok "gid", validator := some is_valid_uuid4,
          transformer := some (fun _ => .error "boom"), hooks := [] }
        (fun _ => [{ type := "http.response.start", headers := [] }])
        { scopeType := "http", headers := [] } = .error "boom" :=
  claim_C9_exception_propagation.2.2.1
    { generator := .ok "gid", validator := some is_valid_uuid4,
      transformer := some (fun _ => .error "boom"), hooks := [] }
    (fun _ => [{ type := "http.response.start", headers := [] }])
    { scopeType := "http", headers := [] }
    "boom" "gid" [] (fun _ => .error "boom") rfl rfl rfl rfl

/-- C4: under the default configuration (default generator and validator,
identity transformer) every 32-character lowercase-hexadecimal inbound ID
is echoed: the value appended to the outbound header set on the
response-headers message is exactly the inbound value, the inbound
headers are left untouched and nothing is logged. -/
theorem claim_C4_echoes_valid_id (gen v : String)
    (app : Request → List Message) (req : Request)
    (hhttp : req.scopeType = "http")
    (hv : headersGet req.headers "X-Request-ID" = some v)
    (hlen : v.data.length = 32)
    (hhex : ∀ c ∈ v.data, isLowerHexDigit c = true) :
    middlewareCall (defaultConfig gen) app req =
      .ok { finalId := some v, reqHeadersSeen := req.headers, logs := [],
            ctxSet := some v, hookCalls := [],
            outMessages := (app req).map
              (fun m =>
                if m.type = "http.response.start"
                then { m with headers := m.headers ++ [("x-request-id", v)] }
                else m) } := by
  have hne : v ≠ "" := by
    intro h
    rw [h] at hlen
    simp at hlen
  have hvalid := is_valid_uuid4_of_lower_hex v hlen hhex
  have hres : resolveId (defaultConfig gen)
      (headersGet req.headers (defaultConfig gen).header_name) = .ok (v, []) := by
    show resolveId (defaultConfig gen)
      (headersGet req.headers "X-Request-ID") = .ok (v, [])
    rw [hv]
    simp [resolveId, defaultConfig, hne, hvalid]
  have hnh : newHeaders (defaultConfig gen) req v = req.headers := by
    unfold newHeaders
    rw [if_neg]
    intro hcontr
    exact hcontr.1 hv
  rw [middlewareCall_ok (defaultConfig gen) app req v [] v [] hhttp hres rfl rfl,
    hnh]
  have hfun : handle_outgoing_request (defaultConfig gen) (some v) =
      fun m => if m.type = "http.response.start"
        then { m with headers := m.headers ++ [("x-request-id", v)] } else m := by
    funext m
    rw [handle_outgoing_of_ne _ v hne m]
    rfl
  rw [hfun]

/-- C4 witness: a concrete valid 32-char lowercase-hex inbound ID is
echoed verbatim into the response-start headers. -/
theorem claim_C4_witness :
    middlewareCall (defaultConfig "g")
        (fun _ => [{ type := "http.response.start",
                     headers := [("content-type", "text/plain")] },
                   { type := "http.response.body", headers := [] }])
        { scopeType := "http",
          headers := [("x-request-id", "c303282df2e646caa04a35d3d873712d")] } =
      .ok { finalId := some "c303282df2e646caa04a35d3d873712d",
            reqHeadersSeen :=
              [("x-request-id", "c303282df2e646caa04a35d3d873712d")],
            logs := [], ctxSet := some "c303282df2e646caa04a35d3d873712d",
            hookCalls := [],
            outMessages :=
              [{ type := "http.response.start",
                 headers := [("content-type", "text/plain"),
                   ("x-request-id", "c303282df2e646caa04a35d3d873712d")] },
               { type := "http.response.body", headers := [] }] } :=
  (claim_C4_echoes_valid_id "g" "c303282df2e646caa04a35d3d873712d"
      (fun _ => [{ type := "http.response.start",
                   headers := [("content-type", "text/plain")] },
                 { type := "http.response.body", headers := [] }])
      { scopeType := "http",
        headers := [("x-request-id", "c303282df2e646caa04a35d3d873712d")] }
      rfl (by decide) (by decide) (by decide)).trans (by rfl)

/-- C10: the default validator returns true exactly when the UUID parser
does not raise, and so accepts strictly more than 32-char lowercase hex:
hyphenated canonical, uppercase, braced and URN forms, and the hex of a
version-1 UUID — whose version nibble the parser overwrites from 1 to 4
instead of checking it. -/
theorem claim_C10_validator_laxness :
    (∀ s : String, is_valid_uuid4 s = (pyUUID4 s).isSome) ∧
    is_valid_uuid4 "c303282df2e646caa04a35d3d873712d" = true ∧
    is_valid_uuid4 "c303282d-f2e6-46ca-a04a-35d3d873712d" = true ∧
    is_valid_uuid4 "C303282D-F2E6-46CA-A04A-35D3D873712D" = true ∧
    is_valid_uuid4 "\x7bc303282d-f2e6-46ca-a04a-35d3d873712d\x7d" = true ∧
    is_valid_uuid4 "urn:uuid:c303282d-f2e6-46ca-a04a-35d3d873712d" = true ∧
    is_valid_uuid4 "2f1d69cca6a611ee8c900242ac120002" = true ∧
    pyUUID4 "2f1d69cca6a611ee8c900242ac120002" =
      some (uuidSetVersion4 0x2f1d69cca6a611ee8c900242ac120002) ∧
    (0x2f1d69cca6a611ee8c900242ac120002 >>> 76) % 16 = 1 ∧
    (uuidSetVersion4 0x2f1d69cca6a611ee8c900242ac120002 >>> 76) % 16 = 4 ∧
    is_valid_uuid4 "bad-uuid" = false ∧
    is_valid_uuid4 "test" = false :=
  ⟨fun _ => rfl, by decide, by decide, by decide, by decide, by decide,
   by decide, by decide, by decide, by decide, by decide, by decide⟩

end AsgiCorrelationId
